import Mathlib

/-!
Shallow embedding of the repository learn_rust_by_testing: didactic Rust
tests for runtime borrow checking (RefCell), a usage-threshold notifier
(LimitTracker), a shared reference-counted cons list, and a user-defined
dereference wrapper (MyBox).  Stateful Rust code is embedded by explicit
state passing; a Rust panic is embedded as Option.none.
-/

/-!
Part 1: the runtime-checked mutable-access cell.

Modelled from the spec: std::cell::RefCell is standard-library code, not
part of src/; only its callers (the tests in
src/tests/interior-mutability.rs and the doc test in src/src/lib.rs) live
in the repository.  Following spec section 4.2 and the std implementation
it describes, the cell owns a value plus a borrow-state flag: 0 means
free, a positive flag counts outstanding immutable tickets, a negative
flag marks an outstanding mutable ticket.  The operations return none
where the Rust code panics with a BorrowError.
-/

/-- State of a RefCell: the contained value and the borrow flag. -/
structure RefCell (α : Type) where
  value : α
  borrowFlag : Int
deriving DecidableEq

/-- Constructor of RefCell: a fresh, unborrowed cell. -/
def RefCell.new (v : α) : RefCell α := ⟨v, 0⟩

/-- Operation borrow: fails (panics, here none) if a mutable ticket is
outstanding; otherwise increments the immutable-ticket counter and returns
read access to the contained value together with the updated cell. -/
def RefCell.borrow (c : RefCell α) : Option (α × RefCell α) :=
  if c.borrowFlag < 0 then none
  else some (c.value, ⟨c.value, c.borrowFlag + 1⟩)

/-- Operation borrow_mut: fails (panics, here none) if any ticket is
outstanding; otherwise marks the mutable-ticket flag.  The returned cell
plays the role of the guard state. -/
def RefCell.borrow_mut (c : RefCell α) : Option (RefCell α) :=
  if c.borrowFlag = 0 then some ⟨c.value, -1⟩ else none

/-- Write performed through an outstanding mutable guard, such as the
push_str call in the tests. -/
def RefCell.writeMut (c : RefCell α) (f : α → α) : RefCell α :=
  ⟨f c.value, c.borrowFlag⟩

/-- Scope exit of a mutable guard: clears the mutable-ticket flag. -/
def RefCell.releaseMut (c : RefCell α) : RefCell α :=
  ⟨c.value, 0⟩

/-- Scope exit of an immutable guard: decrements the immutable counter. -/
def RefCell.releaseShared (c : RefCell α) : RefCell α :=
  ⟨c.value, c.borrowFlag - 1⟩

/-!
Part 2: the user-defined dereference wrapper of src/tests/references.rs.

The Rust source declares a single-field tuple struct MyBox of T; the field
numbered 0 is named data here (after the constructor argument), since a
digit is not a legal Lean field name.
-/

/-- The wrapper type MyBox. -/
structure MyBox (α : Type) where
  data : α
deriving DecidableEq

/-- Constructor of MyBox. -/
def MyBox.new (data : α) : MyBox α := ⟨data⟩

/-- Implementation of the Deref trait for MyBox: returns a read-only view
of the single contained value (the reference to field 0). -/
def MyBox.deref (b : MyBox α) : α := b.data

/-- Unary dereference applied to a MyBox value; Rust resolves the star
operator through the Deref implementation, dereferencing the reference
returned by deref. -/
def MyBox.unaryDeref (b : MyBox α) : α := b.deref

/-- Implementation of the DerefMut trait for MyBox: returns a writable
view of field 0; as a lens, a mutation applied through that mutable
reference updates the field. -/
def MyBox.deref_mut (b : MyBox α) (f : α → α) : MyBox α := ⟨f b.data⟩

/-- Coercion of a mutable reference to the wrapper into a mutable
reference to the contained String (explicit via a cast in
mutable_reference_explicit_coercion, implicit via a type annotation in
mutable_reference_implicit_coercion), followed by a push of a character:
the push lands on the contained String through deref_mut. -/
def coerceMutPush (b : MyBox String) (c : Char) : MyBox String :=
  b.deref_mut (fun s => s.push c)

/-!
Part 3: IEEE-754 double precision, as used by set_value.

The method set_value of LimitTracker computes the quotient of usage and
max_usage after converting both to f64, and compares the quotient with the
literals 1.0, 0.9 and 0.75.  Only nonnegative values arise (conversions of
usize and their quotients), so an f64 is embedded as NaN, positive
infinity, or a finite nonnegative rational given by a numerator and a
denominator; conversions, literals and division are correctly rounded to
53 significant bits with ties to even, as IEEE 754 (and hence the Rust
type f64) prescribes.
-/

/-- Embedded double: NaN, positive infinity, or a finite nonnegative
rational value num / den. -/
inductive F64 where
  | nan
  | inf
  | fin (num den : Nat)
deriving DecidableEq

/-- Fuel-driven normalisation: while a is less than 2 ^ 52 * b, double a.
Returns the scaled numerator and the number of doublings. -/
def norma : Nat → Nat → Nat → Nat × Nat
  | 0, a, _ => (a, 0)
  | f + 1, a, b =>
    if a < 2 ^ 52 * b then
      let p := norma f (2 * a) b
      (p.1, p.2 + 1)
    else (a, 0)

/-- Fuel-driven normalisation: while 2 ^ 53 * b is at most a, double b.
Returns the scaled denominator and the number of doublings. -/
def normb : Nat → Nat → Nat → Nat × Nat
  | 0, _, b => (b, 0)
  | f + 1, a, b =>
    if 2 ^ 53 * b ≤ a then
      let p := normb f a (2 * b)
      (p.1, p.2 + 1)
    else (b, 0)

/-- Rounding of the quotient a / b to an integer, ties to even. -/
def rhalfeven (a b : Nat) : Nat :=
  if b < 2 * (a % b) then a / b + 1
  else if 2 * (a % b) < b then a / b
  else if (a / b) % 2 = 0 then a / b else a / b + 1

/-- Scaling of the numerator into the binade between 2 ^ 52 * den and
2 ^ 53 * den. -/
def r64a (num den : Nat) : Nat × Nat := norma (num + den + 128) num den

/-- Scaling of the denominator up to the binade of the scaled numerator. -/
def r64b (num den : Nat) : Nat × Nat := normb (num + den + 128) (r64a num den).1 den

/-- Correct rounding of the positive rational num / den to 53 significant
bits, ties to even.  Returns the result as a numerator-denominator pair,
the denominator being a power of two. -/
def round64 (num den : Nat) : Nat × Nat :=
  if num = 0 then (0, 1)
  else if (r64b num den).2 ≤ (r64a num den).2 then
    (rhalfeven (r64a num den).1 (r64b num den).1,
      2 ^ ((r64a num den).2 - (r64b num den).2))
  else
    (rhalfeven (r64a num den).1 (r64b num den).1 * 2 ^ ((r64b num den).2 - (r64a num den).2),
      1)

/-- IEEE less-or-equal on embedded doubles: NaN compares false with
everything; finite values compare by cross-multiplication. -/
def F64.le : F64 → F64 → Bool
  | .nan, _ => false
  | _, .nan => false
  | .inf, .inf => true
  | .inf, .fin _ _ => false
  | .fin _ _, .inf => true
  | .fin a b, .fin c d => decide (a * d ≤ c * b)

/-- IEEE greater-or-equal, the comparison set_value uses. -/
def F64.ge (x y : F64) : Bool := F64.le y x

/-- IEEE division on embedded doubles: zero divided by zero is NaN, a
positive finite value divided by zero is positive infinity, and a finite
quotient is correctly rounded. -/
def F64.div : F64 → F64 → F64
  | .nan, _ => .nan
  | _, .nan => .nan
  | .inf, .inf => .nan
  | .inf, .fin _ _ => .inf
  | .fin _ _, .inf => .fin 0 1
  | .fin a _b, .fin 0 _d => if a = 0 then .nan else .inf
  | .fin a b, .fin (c + 1) d =>
    .fin (round64 (a * d) (b * (c + 1))).1 (round64 (a * d) (b * (c + 1))).2

/-- Conversion of a usize value to f64 (correctly rounded; exact for every
value occurring in the tests). -/
def usizeToF64 (n : Nat) : F64 := .fin (round64 n 1).1 (round64 n 1).2

/-- Value of an f64 literal written as the decimal fraction num / den; for
example the Rust literal 0.9 is the rounding of 9 / 10. -/
def f64Lit (num den : Nat) : F64 := .fin (round64 num den).1 (round64 num den).2

/-!
Part 4: the usage-threshold notifier of src/tests/interior-mutability.rs.
-/

/-- Messages that set_value sends through its messenger, given the new
usage and the stored max_usage: the body computes the f64 quotient of
usage and max_usage and walks the mutually exclusive chain of comparisons
with 1.0, 0.9 and 0.75. -/
def quotaMessages (usage max_usage : Nat) : List String :=
  let usage_percent := F64.div (usizeToF64 usage) (usizeToF64 max_usage)
  if usage_percent.ge (f64Lit 1 1) then ["ERROR: Quota exceeded."]
  else if usage_percent.ge (f64Lit 9 10) then ["WARNING: Reached 90% of quota."]
  else if usage_percent.ge (f64Lit 3 4) then ["INFO: Reached 75% of quota."]
  else []

/-- State of a LimitTracker: a messenger reference, the current usage and
the maximal usage.  The messenger reference is an opaque value of type μ;
the tracker only ever passes messages to it. -/
structure LimitTracker (μ : Type) where
  messenger : μ
  usage : Nat
  max_usage : Nat
deriving DecidableEq

/-- Constructor of LimitTracker: stores the messenger reference and the
maximal usage, with the current usage starting at zero. -/
def LimitTracker.new (messenger : μ) (max_usage : Nat) : LimitTracker μ :=
  ⟨messenger, 0, max_usage⟩

/-- The method set_value: stores the new usage, then conditionally sends
one message.  The calls made on the external messenger are returned as the
second component. -/
def LimitTracker.set_value (t : LimitTracker μ) (usage : Nat) :
    LimitTracker μ × List String :=
  ({ t with usage := usage }, quotaMessages usage t.max_usage)

/-!
Part 5: the shared cons list of src/tests/interior-mutability.rs.

The Rust enum is named List, with constructors Cons (holding a reference
counted RefCell of i32 and a reference counted tail) and Nil; the Lean
inductive is named ConsList since List is taken.  Modelled from the spec
(section 9 strategy for the shared-ownership graph): the shared mutable
cells live in an index-addressed arena, and a Cons node holds the index of
its cell, so that two list heads sharing a tail read the same cell.
-/

/-- A cons list node: a Cons holds the arena index of its shared cell and
its tail; Nil terminates. -/
inductive ConsList where
  | Cons (value : Nat) (tail : ConsList)
  | Nil
deriving DecidableEq

/-- Debug formatting of a RefCell of i32, as the Rust derive prints it. -/
def debugRefCell (c : RefCell Int) : String :=
  "RefCell \x7b value: " ++ toString c.value ++ " \x7d"

/-- Debug formatting of a cons list against an arena of cells, as the Rust
derive prints it (the reference-counted pointer is transparent). -/
def debugConsList (store : List (RefCell Int)) : ConsList → String
  | .Cons i t =>
    "Cons(" ++ debugRefCell (store.getD i (RefCell.new 0)) ++ ", " ++
      debugConsList store t ++ ")"
  | .Nil => "Nil"

/-- Current scalar values of a cons list, read through the arena. -/
def consListValues (store : List (RefCell Int)) : ConsList → List Int
  | .Cons i t => (store.getD i (RefCell.new 0)).value :: consListValues store t
  | .Nil => []

/-- Mutation of a shared cell through its access cell, as the test does
with a temporary mutable borrow: borrow mutably, assign, release. -/
def storeSetViaBorrowMut (store : List (RefCell Int)) (i : Nat) (v : Int) :
    Option (List (RefCell Int)) :=
  (RefCell.borrow_mut (store.getD i (RefCell.new 0))).map fun g =>
    store.set i ((g.writeMut fun _ => v).releaseMut)

/-- Arena of the test it_makes_multiple_refs: cell 0 is the shared start
value 5, cell 1 holds 3, cell 2 holds 4. -/
def itMakesMultipleRefsStore : List (RefCell Int) :=
  [RefCell.new 5, RefCell.new 3, RefCell.new 4]

/-- The common tail list holding only the shared cell. -/
def common_list : ConsList := .Cons 0 .Nil

/-- First branch: a head holding 3 in front of the common tail. -/
def branch_1 : ConsList := .Cons 1 common_list

/-- Second branch: a head holding 4 in front of the common tail. -/
def branch_2 : ConsList := .Cons 2 common_list

/-!
Theorems.  First the supporting lemmas about the rounding kernel, then one
theorem (and, where the theorem carries a hypothesis, one witness) per
claim.
-/

/-- The numerator-scaling loop reaches its target whenever the fuel
suffices: if a * 2 ^ f already clears the target, so does the result. -/
theorem norma_reaches (f : Nat) : ∀ a b : Nat, 2 ^ 52 * b ≤ a * 2 ^ f →
    2 ^ 52 * b ≤ (norma f a b).1 := by
  induction f with
  | zero => intro a b h; simpa [norma] using h
  | succ f ih =>
    intro a b h
    rw [norma]
    split
    · have h2 : 2 ^ 52 * b ≤ 2 * a * 2 ^ f := by
        have e : a * 2 ^ (f + 1) = 2 * a * 2 ^ f := by ring
        rw [e] at h; exact h
      simpa using ih (2 * a) b h2
    · simpa using le_of_not_lt (by assumption)

/-- The denominator-scaling loop never overtakes the numerator. -/
theorem normb_le (f : Nat) : ∀ a b : Nat, b ≤ a → (normb f a b).1 ≤ a := by
  induction f with
  | zero => intro a b h; simpa [normb] using h
  | succ f ih =>
    intro a b h
    rw [normb]
    split
    · next hc =>
      have h2 : 2 * b ≤ a := le_trans (by nlinarith) hc
      simpa using ih a (2 * b) h2
    · simpa using h

/-- The denominator-scaling loop preserves positivity. -/
theorem normb_pos (f : Nat) : ∀ a b : Nat, 0 < b → 0 < (normb f a b).1 := by
  induction f with
  | zero => intro a b h; simpa [normb] using h
  | succ f ih =>
    intro a b h
    rw [normb]
    split
    · simpa using ih a (2 * b) (by omega)
    · simpa using h

/-- Rounding ties-to-even never falls below truncation. -/
theorem rhalfeven_ge_div (a b : Nat) : a / b ≤ rhalfeven a b := by
  unfold rhalfeven
  repeat' split
  all_goals omega

/-- Correct rounding of a positive rational is positive. -/
theorem round64_pos (num den : Nat) (hn : num ≠ 0) (hd : 0 < den) :
    0 < (round64 num den).1 := by
  have ha2 : 2 ^ 52 * den ≤ (r64a num den).1 := by
    unfold r64a
    apply norma_reaches
    calc 2 ^ 52 * den ≤ 2 ^ 52 * 2 ^ den :=
          Nat.mul_le_mul_left _ (Nat.le_of_lt (Nat.lt_two_pow den))
      _ = 2 ^ (52 + den) := by rw [pow_add]
      _ ≤ 2 ^ (num + den + 128) := Nat.pow_le_pow_right (by norm_num) (by omega)
      _ ≤ num * 2 ^ (num + den + 128) :=
          Nat.le_mul_of_pos_left _ (Nat.pos_of_ne_zero hn)
  have hda : den ≤ (r64a num den).1 := le_trans (by nlinarith) ha2
  have hba : (r64b num den).1 ≤ (r64a num den).1 := normb_le _ _ _ hda
  have hbpos : 0 < (r64b num den).1 := normb_pos _ _ _ hd
  have hm : 0 < rhalfeven (r64a num den).1 (r64b num den).1 := by
    have h1 : 1 ≤ (r64a num den).1 / (r64b num den).1 :=
      (Nat.one_le_div_iff hbpos).mpr hba
    have h2 := rhalfeven_ge_div (r64a num den).1 (r64b num den).1
    omega
  unfold round64
  rw [if_neg hn]
  split
  · simpa using hm
  · have hp : 0 < 2 ^ ((r64b num den).2 - (r64a num den).2) :=
      Nat.pos_pow_of_pos _ (by norm_num)
    simpa using Nat.mul_pos hm hp

/-- The message chain of set_value emits at most one message. -/
theorem quotaMessages_length_le_one (u m : Nat) : (quotaMessages u m).length ≤ 1 := by
  simp only [quotaMessages]
  split_ifs
  all_goals simp

/-- With a zero maximum, a positive usage makes the quotient positive
infinity and the error message fires. -/
theorem quotaMessages_zero_max (n : Nat) (hn : 0 < n) :
    quotaMessages n 0 = ["ERROR: Quota exceeded."] := by
  have hpos : (round64 n 1).1 ≠ 0 :=
    Nat.pos_iff_ne_zero.mp (round64_pos n 1 (by omega) (by omega))
  have h0 : usizeToF64 0 = F64.fin 0 1 := rfl
  have hdiv : F64.div (usizeToF64 n) (usizeToF64 0) = F64.inf := by
    rw [h0]
    show F64.div (F64.fin (round64 n 1).1 (round64 n 1).2) (F64.fin 0 1) = F64.inf
    rw [F64.div]
    exact if_neg hpos
  simp only [quotaMessages]
  rw [hdiv]
  simp [F64.ge, f64Lit, F64.le]

/-- Claim C1: with a mutable ticket outstanding (negative borrow flag),
both a further borrow and a further borrow_mut on the same cell raise the
fatal runtime violation (modelled as none): neither silently succeeds. -/
theorem refcell_second_borrow_panics (α : Type) (c : RefCell α)
    (h : c.borrowFlag < 0) :
    c.borrow = none ∧ c.borrow_mut = none := by
  constructor
  · simp [RefCell.borrow, h]
  · simp [RefCell.borrow_mut]
    omega

/-- Witness for claim C1 at the state reached in the test
it_panics_on_borrowing_a_mutable_borrow: after borrow_mut and the push of
the suffix, the cell carries the flag of a mutable ticket and the second
borrow attempt panics. -/
theorem refcell_second_borrow_panics_witness :
    RefCell.borrow (⟨"Hello world!", -1⟩ : RefCell String) = none ∧
    RefCell.borrow_mut (⟨"Hello world!", -1⟩ : RefCell String) = none :=
  refcell_second_borrow_panics String ⟨"Hello world!", -1⟩ (by decide)

/-- Claim C4: releasing a mutable guard restores borrowability.  From any
free cell, borrow_mut succeeds; after writing f through the guard and
letting it go out of scope, a subsequent immutable borrow succeeds (no
violation) and observes the mutated value. -/
theorem refcell_release_restores (α : Type) (c : RefCell α) (f : α → α)
    (h : c.borrowFlag = 0) :
    ∃ g, c.borrow_mut = some g ∧
      ((g.writeMut f).releaseMut).borrow = some (f c.value, ⟨f c.value, 1⟩) := by
  refine ⟨⟨c.value, -1⟩, ?_, ?_⟩
  · simp [RefCell.borrow_mut, h]
  · simp [RefCell.writeMut, RefCell.releaseMut, RefCell.borrow]

/-- Witness for claim C4: the trace of the test
it_allows_modification_of_immutable_ref, where the guard appends the
world suffix and the final borrow observes the full sentence. -/
theorem refcell_release_restores_witness :
    ∃ g, (RefCell.new ("Hello")).borrow_mut = some g ∧
      ((g.writeMut (fun s => s ++ " world!")).releaseMut).borrow =
        some ("Hello world!", ⟨"Hello world!", 1⟩) :=
  refcell_release_restores String (RefCell.new ("Hello"))
    (fun s => s ++ " world!") (by decide)

/-- Claim C5: for every MyBox value, the unary dereference and the
explicit deref call yield equal values; in particular on the test value
holding 5 both give 5. -/
theorem mybox_star_eq_deref :
    (∀ (α : Type) (b : MyBox α), b.unaryDeref = b.deref) ∧
    (MyBox.new (5 : Int)).unaryDeref = 5 ∧
    (MyBox.new (5 : Int)).deref = 5 :=
  ⟨fun _ _ => rfl, rfl, rfl⟩

/-- Claim C6: for every mutable MyBox of String, pushing a character
through the coerced mutable reference is visible afterwards when
dereferencing the wrapper; in particular the test value becomes the
test string with one more exclamation mark. -/
theorem mybox_mut_coercion_push_visible :
    (∀ (b : MyBox String) (c : Char),
      (coerceMutPush b c).unaryDeref = b.unaryDeref.push c) ∧
    (coerceMutPush (MyBox.new ("Hola mundo!")) (Char.ofNat 33)).unaryDeref =
      "Hola mundo!!" :=
  ⟨fun _ _ => rfl, by decide⟩

/-- Claim C2: for every LimitTracker with a maximal usage of 100, setting
the value to 80 sends exactly the informational message, 95 exactly the
warning, 100 exactly the error, 50 nothing; and every call sends at most
one message. -/
theorem limit_tracker_thresholds (μ : Type) (t : LimitTracker μ)
    (h : t.max_usage = 100) :
    (t.set_value 80).2 = ["INFO: Reached 75% of quota."] ∧
    (t.set_value 95).2 = ["WARNING: Reached 90% of quota."] ∧
    (t.set_value 100).2 = ["ERROR: Quota exceeded."] ∧
    (t.set_value 50).2 = [] ∧
    ∀ v, (t.set_value v).2.length ≤ 1 := by
  simp only [LimitTracker.set_value, h]
  exact ⟨by decide, by decide, by decide, by decide,
    fun v => quotaMessages_length_le_one v 100⟩

/-- Witness for claim C2 on a freshly constructed tracker with maximal
usage 100. -/
theorem limit_tracker_thresholds_witness :
    ((LimitTracker.new (0 : Nat) 100).set_value 80).2 = ["INFO: Reached 75% of quota."] ∧
    ((LimitTracker.new (0 : Nat) 100).set_value 50).2.length ≤ 1 :=
  ⟨(limit_tracker_thresholds Nat (LimitTracker.new 0 100) rfl).1,
   (limit_tracker_thresholds Nat (LimitTracker.new 0 100) rfl).2.2.2.2 50⟩

/-- Claim C7: set_value only rewrites the usage field (messenger and
max_usage are unchanged), and the messages sent depend only on the new
value and max_usage, independently of any other state. -/
theorem set_value_frame (μ : Type) (t : LimitTracker μ) (v : Nat) :
    (t.set_value v).1 = { t with usage := v } ∧
    (t.set_value v).1.messenger = t.messenger ∧
    (t.set_value v).1.max_usage = t.max_usage ∧
    ∀ (ν : Type) (s : LimitTracker ν), t.max_usage = s.max_usage →
      (t.set_value v).2 = (s.set_value v).2 := by
  refine ⟨rfl, rfl, rfl, fun ν s h => ?_⟩
  simp [LimitTracker.set_value, h]

/-- Witness for claim C7: two trackers with equal maximal usage but
different messengers and different previous usages emit the same messages,
and the update only touches the usage field. -/
theorem set_value_frame_witness :
    ((⟨0, 5, 100⟩ : LimitTracker Nat).set_value 80).1 = ⟨0, 80, 100⟩ ∧
    ((⟨0, 5, 100⟩ : LimitTracker Nat).set_value 80).2 =
      ((⟨1, 7, 100⟩ : LimitTracker Nat).set_value 80).2 :=
  ⟨(set_value_frame Nat ⟨0, 5, 100⟩ 80).1,
   (set_value_frame Nat ⟨0, 5, 100⟩ 80).2.2.2 Nat ⟨1, 7, 100⟩ rfl⟩

/-- Claim C10: set_value is total with a zero maximum: setting the value
to 0 emits nothing (the quotient of zero by zero is NaN, which satisfies
no threshold comparison), and any positive value emits exactly the error
message (the quotient is positive infinity). -/
theorem set_value_zero_max_total (μ : Type) (t : LimitTracker μ)
    (h : t.max_usage = 0) :
    (t.set_value 0).2 = [] ∧
    ∀ n, 0 < n → (t.set_value n).2 = ["ERROR: Quota exceeded."] := by
  simp only [LimitTracker.set_value, h]
  exact ⟨by decide, fun n hn => quotaMessages_zero_max n hn⟩

/-- Witness for claim C10 on a freshly constructed tracker with maximal
usage 0, at the values 0 and 7. -/
theorem set_value_zero_max_total_witness :
    ((LimitTracker.new (0 : Nat) 0).set_value 0).2 = [] ∧
    ((LimitTracker.new (0 : Nat) 0).set_value 7).2 = ["ERROR: Quota exceeded."] :=
  ⟨(set_value_zero_max_total Nat (LimitTracker.new 0 0) rfl).1,
   (set_value_zero_max_total Nat (LimitTracker.new 0 0) rfl).2 7 (by decide)⟩

/-- Claim C3: before the mutation, the two branches print as the lists
holding 3 then 5 and 4 then 5; mutating the shared cell to 10 through its
access cell succeeds, and afterwards both heads print (and read) the
mutated value: 3 then 10 and 4 then 10.  Printing reflects the current
value, not the value at construction time. -/
theorem shared_tail_mutation_visible :
    debugConsList itMakesMultipleRefsStore branch_1 =
      "Cons(RefCell \x7b value: 3 \x7d, Cons(RefCell \x7b value: 5 \x7d, Nil))" ∧
    debugConsList itMakesMultipleRefsStore branch_2 =
      "Cons(RefCell \x7b value: 4 \x7d, Cons(RefCell \x7b value: 5 \x7d, Nil))" ∧
    ∃ s1, storeSetViaBorrowMut itMakesMultipleRefsStore 0 10 = some s1 ∧
      debugConsList s1 branch_1 =
        "Cons(RefCell \x7b value: 3 \x7d, Cons(RefCell \x7b value: 10 \x7d, Nil))" ∧
      debugConsList s1 branch_2 =
        "Cons(RefCell \x7b value: 4 \x7d, Cons(RefCell \x7b value: 10 \x7d, Nil))" ∧
      consListValues s1 branch_1 = [3, 10] ∧
      consListValues s1 branch_2 = [4, 10] :=
  ⟨by decide, by decide,
    ⟨[⟨10, 0⟩, ⟨3, 0⟩, ⟨4, 0⟩], by decide, by decide, by decide, by decide, by decide⟩⟩
